import Mathlib

/-!
Verification of the date utilities in `src/04-date-tasks.js`.

The file shallowly embeds the five functions of the module —
`parseDataFromRfc2822`, `parseDataFromIso8601`, `isLeapYear`,
`timeSpanToString` and `angleBetweenClockHands` — and proves the
specified properties about them.

Modelling conventions:
* A calendar instant is its millisecond count since the epoch (`Int`);
  functions that only read specific fields of the date
  (`getFullYear`, `getUTCHours`, `getUTCMinutes`) are embedded as
  functions of those fields.
* A JavaScript number that can be NaN is `Option Int` (`none` = NaN);
  the invalid-date sentinel `new Date(NaN)` has every numeric field NaN.
* The JavaScript `%` operator on integers is truncated remainder,
  i.e. `Int.tmod`.
* `Number.prototype.toString` (base 10) and the implicit string-to-number
  coercion that the source applies to decimal-digit strings are embedded
  by `natToChars`/`jsNumToString` and `jsStringToNum` below.
* The host primitive `new Date(string)` (date-text parsing) is not part
  of the repository; functions that call it take it as an explicit
  parameter `new_Date : String → Option Int`, total by type (the real
  primitive never throws) with `none` as the invalid-instant sentinel.
* Angles are computed exactly: degree arithmetic in `ℚ` (the source only
  ever produces multiples of one half), the final radian value in `ℝ`.
* Number arithmetic on millisecond counts is embedded exactly over
  `Int`/`Nat`, matching the specification's data model of an instant as
  an integer millisecond count.
-/

namespace DateTasks

/-! ## JavaScript primitives used by the embedding -/

/-- A JavaScript number restricted to the integral values that occur in
this module; `none` models NaN. -/
abbrev JSNum := Option Int

/-- The JavaScript remainder operator `%` on integer values: truncated
remainder (sign of the dividend); NaN propagates, and a zero divisor
gives NaN. -/
def jsMod : JSNum → JSNum → JSNum
  | some a, some b => if b = 0 then none else some (Int.tmod a b)
  | _, _ => none

/-- The JavaScript strict-equality test `=== 0` on a number: false for
NaN. -/
def jsEqZero : JSNum → Bool
  | some a => a == 0
  | none => false

/-- Decimal digit list of a natural number, mirroring
`Number.prototype.toString` (base 10): the digits of `n / 10` followed by
the digit of `n % 10`. -/
def natToChars (n : Nat) : List Char :=
  if _h : n < 10 then [Nat.digitChar n]
  else natToChars (n / 10) ++ [Nat.digitChar (n % 10)]
termination_by n
decreasing_by exact Nat.div_lt_self (by omega) (by omega)

/-- Decimal string of a natural number. -/
def natToString (n : Nat) : String :=
  ⟨natToChars n⟩

/-- JavaScript `Number.prototype.toString` (base 10) on an integer. -/
def jsNumToString (i : Int) : String :=
  if i < 0 then "-" ++ natToString i.natAbs else natToString i.natAbs

/-- The implicit JavaScript string-to-number coercion as it occurs in
`timeSpanToString`, where it is only ever applied to non-empty strings of
decimal digits: the value of the digit string. -/
def jsStringToNum (s : String) : Int :=
  ((s.data.foldl (fun n c => n * 10 + (c.toNat - 48)) 0 : Nat) : Int)

/-! ## The five functions of `src/04-date-tasks.js` -/

/-- Embeds `parseDataFromRfc2822(value) { return new Date(value); }`.
The host parsing primitive `new Date(string)` is an explicit parameter. -/
def parseDataFromRfc2822 (new_Date : String → Option Int)
    (value : String) : Option Int :=
  new_Date value

/-- Embeds `parseDataFromIso8601(value) { return new Date(value); }`.
The host parsing primitive `new Date(string)` is an explicit parameter. -/
def parseDataFromIso8601 (new_Date : String → Option Int)
    (value : String) : Option Int :=
  new_Date value

/-- Embeds `isLeapYear(date)`. The function only reads
`new Date(date).getFullYear()`, so it is embedded as a function of that
year value; `none` is the NaN year of the invalid-date sentinel.
Source: if year % 100 === 0 then (if year % 400 === 0 then true else
false) else year % 4 === 0. -/
def isLeapYear (dateFullYear : JSNum) : Bool :=
  if jsEqZero (jsMod dateFullYear (some 100)) then
    if jsEqZero (jsMod dateFullYear (some 400)) then true else false
  else
    jsEqZero (jsMod dateFullYear (some 4))

/-- Embeds `timeSpanToString(startDate, endDate)`; the two dates are
their millisecond values. `dif` is `Math.abs(new Date(endDate -
startDate))`, i.e. the absolute difference in milliseconds. The source
multiplies the *string* variables `hours`, `minutes`, `secs` by numeric
constants, so the JS string-to-number coercion `jsStringToNum` appears at
those spots; `Math.floor` on a non-negative quotient is `Int` division
(`Int./` is Euclidean division, which is floor for positive divisors),
and `Math.floor` applied to an integer (the `mlsecs` line) is the
identity, so it is dropped there. -/
def timeSpanToString (startDate endDate : Int) : String :=
  let dif : Int := ((endDate - startDate).natAbs : Int)
  let hours : String := jsNumToString (dif / 3600000)
  let hours : String := if hours.length < 2 then "0" ++ hours else hours
  let minutes : String :=
    natToString ((dif - jsStringToNum hours * 3600000) / 60000).natAbs
  let minutes : String :=
    if minutes.length < 2 then "0" ++ minutes else minutes
  let secs : String :=
    natToString
      ((dif - jsStringToNum hours * 3600000 - jsStringToNum minutes * 60000)
        / 1000).natAbs
  let secs : String := if secs.length < 2 then "0" ++ secs else secs
  let mlsecs : String :=
    natToString
      (dif - jsStringToNum hours * 3600000 - jsStringToNum minutes * 60000
        - jsStringToNum secs * 1000).natAbs
  let mlsecs : String := if mlsecs.length < 2 then "00" ++ mlsecs else mlsecs
  let mlsecs : String := if mlsecs.length < 3 then "0" ++ mlsecs else mlsecs
  hours ++ ":" ++ minutes ++ ":" ++ secs ++ "." ++ mlsecs

/-- The degree-valued `result` variable of `angleBetweenClockHands`, as a
function of `getUTCHours()` and `getUTCMinutes()` of the date:
`hours` is the UTC hour reduced by 12 when above 12, `shiftH = minutes /
2`, `shiftM = minutes * 6`, `hzH = hours * 30`, and `result` is `shiftM -
hzH - shiftH` when `shiftM > hzH` and `hzH - shiftM + shiftH`
otherwise. -/
def clockRawAngleDeg (utcHours utcMinutes : Nat) : ℚ :=
  let hours : Nat := if utcHours > 12 then utcHours - 12 else utcHours
  let shiftH : ℚ := (utcMinutes : ℚ) / 2
  let shiftM : ℚ := (utcMinutes : ℚ) * 6
  let hzH : ℚ := (hours : ℚ) * 30
  if shiftM > hzH then shiftM - hzH - shiftH else hzH - shiftM + shiftH

/-- Embeds `angleBetweenClockHands(date)` as a function of
`getUTCHours()` and `getUTCMinutes()`: folds `result` at 180° (the
`result > 180` branch), returns `Math.PI` directly when `result === 180`,
and otherwise converts degrees to radians. -/
noncomputable def angleBetweenClockHands (utcHours utcMinutes : Nat) : ℝ :=
  let result : ℚ := clockRawAngleDeg utcHours utcMinutes
  if result > 180 then ((360 - result : ℚ) : ℝ) * (Real.pi / 180)
  else if result = 180 then Real.pi
  else (((result : ℚ) : ℝ) * Real.pi) / 180

/-! ## Definitions taken from the specification's words
(for the refinement-style claims) -/

/-- The Gregorian leap-year rule as the specification words it: the year
is divisible by 4 and (not divisible by 100, or divisible by 400). -/
def gregorianLeapSpec (year : Int) : Prop :=
  4 ∣ year ∧ (¬(100 ∣ year) ∨ 400 ∣ year)

/-- Left-pad a string with a character to the given width. -/
def leftPad (w : Nat) (c : Char) (s : String) : String :=
  ⟨List.replicate (w - s.length) c⟩ ++ s

/-- The specification's rendering of a non-negative millisecond interval:
`HH:mm:ss.sss`, hours, minutes and seconds zero-padded to two digits
(hours unbounded), milliseconds zero-padded to three digits. -/
def renderTimeSpanSpec (dif : Nat) : String :=
  leftPad 2 '0' (natToString (dif / 3600000)) ++ ":" ++
    leftPad 2 '0' (natToString (dif / 60000 % 60)) ++ ":" ++
    leftPad 2 '0' (natToString (dif / 1000 % 60)) ++ "." ++
    leftPad 3 '0' (natToString (dif % 1000))

/-- A total model of the host `new Date(string)` primitive, which is not
part of this repository. The specification fixes only that the primitive
never throws and yields the invalid-instant sentinel on unparseable text
such as "not a date"; any total function with that behaviour instantiates
it. This witness model rejects exactly the digit-free strings, which
covers the specification's example of unparseable text. -/
def newDateModel (s : String) : Option Int :=
  if s.data.any Char.isDigit then some 0 else none

/-! ## Helper lemmas -/

/-- Truncated remainder is zero exactly on multiples, for all signs. -/
theorem tmod_eq_zero_iff_dvd (a b : Int) : a.tmod b = 0 ↔ b ∣ a := by
  have h : (a.tmod b).natAbs = a.natAbs % b.natAbs := by
    rcases a with m | m
    all_goals rcases b with n | n
    all_goals simp [Int.tmod]
    all_goals norm_cast
  rw [← Int.natAbs_eq_zero, h, ← Int.natAbs_dvd_natAbs]
  exact Nat.dvd_iff_mod_eq_zero.symm

/-- Decimal digit characters have the code point 48 + digit. -/
theorem digitChar_toNat (d : Nat) (h : d < 10) :
    (Nat.digitChar d).toNat = 48 + d := by
  interval_cases d <;> rfl

/-- First unfolding of `natToChars` for one-digit numbers. -/
theorem natToChars_lt (n : Nat) (h : n < 10) :
    natToChars n = [Nat.digitChar n] := by
  rw [natToChars]
  simp [h]

/-- First unfolding of `natToChars` for numbers of two or more digits. -/
theorem natToChars_ge (n : Nat) (h : ¬n < 10) :
    natToChars n = natToChars (n / 10) ++ [Nat.digitChar (n % 10)] := by
  rw [natToChars]
  simp [h]

/-- A decimal rendering is never empty. -/
theorem natToChars_length_pos (n : Nat) : 0 < (natToChars n).length := by
  by_cases h : n < 10
  · simp [natToChars_lt n h]
  · simp [natToChars_ge n h]

/-- Folding the digit values over a decimal rendering recovers the
number: the string-to-number coercion is a left inverse of
`toString`. -/
theorem foldl_digits_natToChars (n : Nat) :
    (natToChars n).foldl (fun a c => a * 10 + (c.toNat - 48)) 0 = n := by
  induction n using Nat.strong_induction_on with
  | _ n ih =>
    by_cases h : n < 10
    · simp [natToChars_lt n h, digitChar_toNat n h]
    · rw [natToChars_ge n h, List.foldl_append,
        ih (n / 10) (Nat.div_lt_self (by omega) (by omega))]
      simp [digitChar_toNat (n % 10) (by omega)]
      omega

/-- The JS coercion of a rendered natural number is the number. -/
theorem jsStringToNum_natToString (n : Nat) :
    jsStringToNum (natToString n) = (n : Int) := by
  simp [jsStringToNum, natToString, foldl_digits_natToChars]

/-- Folding the digit values over leading zero characters keeps the
accumulator at zero. -/
theorem foldl_digits_replicate_zero (k : Nat) :
    (List.replicate k '0').foldl (fun a c => a * 10 + (c.toNat - 48)) 0 = 0 := by
  induction k with
  | zero => simp
  | succ k ih => simpa using ih

/-- The JS coercion ignores zero left-padding. -/
theorem jsStringToNum_leftPad_zero (w : Nat) (s : String) :
    jsStringToNum (leftPad w '0' s) = jsStringToNum s := by
  simp [jsStringToNum, leftPad, String.data_append, List.foldl_append,
    foldl_digits_replicate_zero]

/-- String length adds over concatenation. -/
theorem length_append' (s t : String) : (s ++ t).length = s.length + t.length := by
  rcases s with ⟨l⟩
  rcases t with ⟨m⟩
  show (String.mk (l ++ m)).length = _
  simp

/-- `jsNumToString` agrees with `natToString` on natural numbers. -/
theorem jsNumToString_natCast (n : Nat) :
    jsNumToString (n : Int) = natToString n := by
  unfold jsNumToString
  rw [if_neg (by omega), Int.natAbs_ofNat]

/-- Rendered string length of a natural number below 100. -/
theorem length_natToString_le_two (n : Nat) (h : n < 100) :
    (natToString n).length ≤ 2 := by
  simp only [natToString, String.mk_length]
  by_cases h10 : n < 10
  · simp [natToChars_lt n h10]
  · rw [natToChars_ge n h10]
    have : n / 10 < 10 := by omega
    simp [natToChars_lt (n / 10) this]

/-- A natural number of at least 100 renders with more than two
digits. -/
theorem two_lt_length_natToString (n : Nat) (h : 100 ≤ n) :
    2 < (natToString n).length := by
  simp only [natToString, String.mk_length]
  rw [natToChars_ge n (by omega), natToChars_ge (n / 10) (by omega)]
  have := natToChars_length_pos (n / 10 / 10)
  simp only [List.length_append, List.length_cons, List.length_nil]
  omega

/-- A rendered string is never empty. -/
theorem length_natToString_pos (n : Nat) : 0 < (natToString n).length := by
  simp only [natToString, String.mk_length]
  exact natToChars_length_pos n

/-- Length of a padded string. -/
theorem length_leftPad (w : Nat) (c : Char) (s : String) :
    (leftPad w c s).length = max w s.length := by
  simp only [leftPad, length_append', String.mk_length, List.length_replicate]
  omega

/-- The source's two-digit padding step agrees with zero-padding to
width two, for non-empty strings. -/
theorem pad_two_eq_leftPad (s : String) (h : 0 < s.length) :
    (if s.length < 2 then "0" ++ s else s) = leftPad 2 '0' s := by
  unfold leftPad
  split
  · next hlt =>
    have h1 : 2 - s.length = 1 := by omega
    rw [h1]
    rcases s with ⟨l⟩
    rfl
  · next hge =>
    have h0 : 2 - s.length = 0 := by omega
    rw [h0]
    rcases s with ⟨l⟩
    rfl

/-- The source's two-step millisecond padding agrees with zero-padding
to width three, for non-empty strings. -/
theorem pad_three_eq_leftPad (s : String) (h : 0 < s.length) :
    (if (if s.length < 2 then "00" ++ s else s).length < 3 then
        "0" ++ (if s.length < 2 then "00" ++ s else s)
      else (if s.length < 2 then "00" ++ s else s)) = leftPad 3 '0' s := by
  by_cases h1 : s.length < 2
  · have e : s.length = 1 := by omega
    have t1 : (if s.length < 2 then "00" ++ s else s) = "00" ++ s := if_pos h1
    rw [t1]
    have h00 : ("00" : String).length = 2 := rfl
    have hl : ("00" ++ s).length = 2 + s.length := by rw [length_append', h00]
    rw [if_neg (by rw [hl]; omega)]
    unfold leftPad
    rw [e]
    rcases s with ⟨l⟩
    rfl
  · have t1 : (if s.length < 2 then "00" ++ s else s) = s := if_neg h1
    rw [t1]
    by_cases h2 : s.length < 3
    · have e : s.length = 2 := by omega
      rw [if_pos h2]
      unfold leftPad
      rw [e]
      rcases s with ⟨l⟩
      rfl
    · rw [if_neg h2]
      unfold leftPad
      rw [(by omega : 3 - s.length = 0)]
      rcases s with ⟨l⟩
      rfl

/-- The embedded `timeSpanToString` renders exactly the specification's
`HH:mm:ss.sss` string of the absolute millisecond difference. -/
theorem timeSpanToString_eq_render (startDate endDate : Int) :
    timeSpanToString startDate endDate
      = renderTimeSpanSpec ((endDate - startDate).natAbs) := by
  simp only [timeSpanToString, renderTimeSpanSpec]
  set D : Nat := (endDate - startDate).natAbs with hD
  rw [(by omega : ((D : Int)) / 3600000 = ((D / 3600000 : Nat) : Int))]
  rw [jsNumToString_natCast]
  rw [pad_two_eq_leftPad _ (length_natToString_pos _)]
  rw [jsStringToNum_leftPad_zero, jsStringToNum_natToString]
  rw [(by omega : ((((D : Int)) - ((D / 3600000 : Nat) : Int) * 3600000) / 60000).natAbs
        = D / 60000 % 60)]
  rw [pad_two_eq_leftPad _ (length_natToString_pos _)]
  rw [jsStringToNum_leftPad_zero, jsStringToNum_natToString]
  rw [(by omega : ((((D : Int)) - ((D / 3600000 : Nat) : Int) * 3600000
          - ((D / 60000 % 60 : Nat) : Int) * 60000) / 1000).natAbs
        = D / 1000 % 60)]
  rw [pad_two_eq_leftPad _ (length_natToString_pos _)]
  rw [jsStringToNum_leftPad_zero, jsStringToNum_natToString]
  rw [(by omega : (((D : Int)) - ((D / 3600000 : Nat) : Int) * 3600000
          - ((D / 60000 % 60 : Nat) : Int) * 60000
          - ((D / 1000 % 60 : Nat) : Int) * 1000).natAbs
        = D % 1000)]
  rw [pad_three_eq_leftPad _ (length_natToString_pos _)]

/-! ## Claims about the two parsing functions -/

/-- Claim C9: the two parsers are extensionally equal — for every host parsing
primitive and every input string they return the same value, namely the
primitive's own result, so neither performs format-specific
validation. -/
theorem parse_functions_extensionally_equal :
    ∀ (new_Date : String → Option Int) (value : String),
      parseDataFromRfc2822 new_Date value = parseDataFromIso8601 new_Date value ∧
      parseDataFromRfc2822 new_Date value = new_Date value :=
  fun _ _ => ⟨rfl, rfl⟩

/-- Claim C4: both parsers are total by type (no exceptions), and whenever the
host primitive reports unparseable input by the invalid-instant sentinel
`none`, each parser returns that sentinel. -/
theorem parse_functions_return_sentinel :
    ∀ (new_Date : String → Option Int) (value : String),
      new_Date value = none →
        parseDataFromRfc2822 new_Date value = none ∧
        parseDataFromIso8601 new_Date value = none :=
  fun _ _ h => ⟨h, h⟩

/-- Witness for C4 at the unparseable text "not a date", with the host
primitive instantiated by the total model `newDateModel`. -/
theorem parse_functions_return_sentinel_witness :
    newDateModel "not a date" = none ∧
    (parseDataFromRfc2822 newDateModel "not a date" = none ∧
      parseDataFromIso8601 newDateModel "not a date" = none) :=
  ⟨by decide, parse_functions_return_sentinel newDateModel "not a date" (by decide)⟩

/-! ## Claims about `isLeapYear` -/

/-- Claim C2: for every instant with a (numeric) calendar year, `isLeapYear`
decides exactly the Gregorian rule of the specification, and it returns
the specified values on 1900, 2000, 2001, 2012 and 2015. -/
theorem isLeapYear_iff_gregorian :
    (∀ y : Int, isLeapYear (some y) = true ↔ gregorianLeapSpec y) ∧
    isLeapYear (some 1900) = false ∧ isLeapYear (some 2000) = true ∧
    isLeapYear (some 2001) = false ∧ isLeapYear (some 2012) = true ∧
    isLeapYear (some 2015) = false := by
  refine ⟨fun y => ?_, by decide, by decide, by decide, by decide, by decide⟩
  have h400_4 : (400 : Int) ∣ y → (4 : Int) ∣ y :=
    fun h => dvd_trans (by norm_num) h
  have h400_100 : (400 : Int) ∣ y → (100 : Int) ∣ y :=
    fun h => dvd_trans (by norm_num) h
  simp only [isLeapYear, jsMod, gregorianLeapSpec]
  norm_num
  simp only [jsEqZero, beq_iff_eq, tmod_eq_zero_iff_dvd]
  by_cases h100 : (100 : Int) ∣ y
  all_goals by_cases h400 : (400 : Int) ∣ y
  all_goals by_cases h4 : (4 : Int) ∣ y
  all_goals simp [h100, h400, h4]
  all_goals tauto

/-- Claim C10: `isLeapYear` on the invalid-date sentinel (NaN year) terminates
and returns `false`, because every `% ... === 0` test on NaN is false. -/
theorem isLeapYear_invalid_date : isLeapYear none = false := by decide

/-! ## Claims about `timeSpanToString` -/

/-- Claim C3: `timeSpanToString` renders the absolute millisecond difference
as `HH:mm:ss.sss` with two-digit zero-padded hours, minutes and seconds
and three-digit zero-padded milliseconds, and returns the three
specified example strings. -/
theorem timeSpanToString_correct :
    (∀ startDate endDate : Int,
        timeSpanToString startDate endDate
          = renderTimeSpanSpec ((endDate - startDate).natAbs)) ∧
    timeSpanToString 0 3600000 = "01:00:00.000" ∧
    timeSpanToString 0 250 = "00:00:00.250" ∧
    timeSpanToString 0 19210453 = "05:20:10.453" := by
  refine ⟨timeSpanToString_eq_render, ?_, ?_, ?_⟩
  · rw [timeSpanToString_eq_render,
      (by omega : ((3600000 : Int) - 0).natAbs = 3600000)]
    simp [renderTimeSpanSpec, leftPad, natToString, natToChars, Nat.digitChar]
    decide
  · rw [timeSpanToString_eq_render,
      (by omega : ((250 : Int) - 0).natAbs = 250)]
    simp [renderTimeSpanSpec, leftPad, natToString, natToChars, Nat.digitChar]
    decide
  · rw [timeSpanToString_eq_render,
      (by omega : ((19210453 : Int) - 0).natAbs = 19210453)]
    simp [renderTimeSpanSpec, leftPad, natToString, natToChars, Nat.digitChar]
    decide

/-- Claim C7: the rendered time span is symmetric in its two arguments — only
the absolute difference matters. -/
theorem timeSpanToString_symmetric :
    ∀ startDate endDate : Int,
      timeSpanToString startDate endDate = timeSpanToString endDate startDate := by
  intro a b
  rw [timeSpanToString_eq_render, timeSpanToString_eq_render]
  rw [(by omega : (b - a).natAbs = (a - b).natAbs)]

/-- Claim C8: for spans of at least 100 hours the hours field is rendered with
more than two digits (no truncation), while minutes, seconds and
milliseconds keep their fixed widths of 2, 2 and 3 digits. -/
theorem timeSpanToString_long_spans :
    ∀ startDate endDate : Int,
      360000000 ≤ (endDate - startDate).natAbs →
        2 < (natToString ((endDate - startDate).natAbs / 3600000)).length ∧
        timeSpanToString startDate endDate
          = natToString ((endDate - startDate).natAbs / 3600000) ++ ":" ++
              leftPad 2 '0'
                (natToString ((endDate - startDate).natAbs / 60000 % 60)) ++ ":" ++
              leftPad 2 '0'
                (natToString ((endDate - startDate).natAbs / 1000 % 60)) ++ "." ++
              leftPad 3 '0' (natToString ((endDate - startDate).natAbs % 1000)) ∧
        (leftPad 2 '0'
            (natToString ((endDate - startDate).natAbs / 60000 % 60))).length = 2 ∧
        (leftPad 2 '0'
            (natToString ((endDate - startDate).natAbs / 1000 % 60))).length = 2 ∧
        (leftPad 3 '0'
            (natToString ((endDate - startDate).natAbs % 1000))).length = 3 := by
  intro a b h
  set D : Nat := (b - a).natAbs with hD
  have hH : 100 ≤ D / 3600000 := by omega
  have hlong := two_lt_length_natToString _ hH
  refine ⟨hlong, ?_, ?_, ?_, ?_⟩
  · rw [timeSpanToString_eq_render, renderTimeSpanSpec]
    have : leftPad 2 '0' (natToString (D / 3600000))
        = natToString (D / 3600000) := by
      unfold leftPad
      rw [(by omega : 2 - (natToString (D / 3600000)).length = 0)]
      rcases natToString (D / 3600000) with ⟨l⟩
      rfl
    rw [this]
  · rw [length_leftPad]
    have := length_natToString_le_two (D / 60000 % 60) (by omega)
    omega
  · rw [length_leftPad]
    have := length_natToString_le_two (D / 1000 % 60) (by omega)
    omega
  · rw [length_leftPad]
    have h3 : (natToString (D % 1000)).length ≤ 3 := by
      by_cases hc : D % 1000 < 100
      · have := length_natToString_le_two (D % 1000) hc
        omega
      · simp only [natToString, String.mk_length]
        rw [natToChars_ge _ (by omega), natToChars_ge (D % 1000 / 10) (by omega)]
        have hlt : D % 1000 / 10 / 10 < 10 := by omega
        rw [natToChars_lt _ hlt]
        simp
    omega

/-- Witness for C8 at a span of exactly 100 hours. -/
theorem timeSpanToString_long_spans_witness :
    360000000 ≤ ((360000000 : Int) - 0).natAbs ∧
      (2 < (natToString (((360000000 : Int) - 0).natAbs / 3600000)).length ∧
        timeSpanToString 0 360000000
          = natToString (((360000000 : Int) - 0).natAbs / 3600000) ++ ":" ++
              leftPad 2 '0'
                (natToString (((360000000 : Int) - 0).natAbs / 60000 % 60)) ++ ":" ++
              leftPad 2 '0'
                (natToString (((360000000 : Int) - 0).natAbs / 1000 % 60)) ++ "." ++
              leftPad 3 '0' (natToString (((360000000 : Int) - 0).natAbs % 1000)) ∧
        (leftPad 2 '0'
            (natToString (((360000000 : Int) - 0).natAbs / 60000 % 60))).length = 2 ∧
        (leftPad 2 '0'
            (natToString (((360000000 : Int) - 0).natAbs / 1000 % 60))).length = 2 ∧
        (leftPad 3 '0'
            (natToString (((360000000 : Int) - 0).natAbs % 1000))).length = 3) :=
  ⟨by omega, timeSpanToString_long_spans 0 360000000 (by omega)⟩

/-! ## Claims about `angleBetweenClockHands` -/

/-- Claim C1 (refuted — code bug): at UTC 03:16 the branch test `shiftM > hzH`
(minute hand past the hour mark 30·h) fires even though the minute hand
is still behind the hour hand (which has advanced by `shiftH`), so the
code returns the negative value −π/90 instead of an angle in [0, π]. -/
theorem angleBetweenClockHands_negative_at_3_16 :
    angleBetweenClockHands 3 16 = -(Real.pi / 90) ∧
    angleBetweenClockHands 3 16 < 0 := by
  have e : clockRawAngleDeg 3 16 = -2 := by norm_num [clockRawAngleDeg]
  have v : angleBetweenClockHands 3 16 = -(Real.pi / 90) := by
    simp only [angleBetweenClockHands, e]
    norm_num
    ring
  refine ⟨v, v ▸ ?_⟩
  have h := Real.pi_pos
  linarith

/-- Claim C5: the four specified evaluations of the clock-hand angle: 00:00 →
0, 03:00 → π/2, 18:00 → π, 21:00 → π/2 (UTC hours and minutes). -/
theorem angleBetweenClockHands_examples :
    angleBetweenClockHands 0 0 = 0 ∧
    angleBetweenClockHands 3 0 = Real.pi / 2 ∧
    angleBetweenClockHands 18 0 = Real.pi ∧
    angleBetweenClockHands 21 0 = Real.pi / 2 := by
  refine ⟨?_, ?_, ?_, ?_⟩
  · have e : clockRawAngleDeg 0 0 = 0 := by norm_num [clockRawAngleDeg]
    simp only [angleBetweenClockHands, e]
    norm_num
  · have e : clockRawAngleDeg 3 0 = 90 := by norm_num [clockRawAngleDeg]
    simp only [angleBetweenClockHands, e]
    norm_num
    ring
  · have e : clockRawAngleDeg 18 0 = 180 := by norm_num [clockRawAngleDeg]
    simp only [angleBetweenClockHands, e]
    norm_num
  · have e : clockRawAngleDeg 21 0 = 270 := by norm_num [clockRawAngleDeg]
    simp only [angleBetweenClockHands, e]
    norm_num
    ring

/-- Claim C6: whenever the raw degree value `result` is exactly 180, the
`result === 180` branch returns the constant π directly. -/
theorem angleBetweenClockHands_at_straight_angle :
    ∀ utcHours utcMinutes : Nat,
      clockRawAngleDeg utcHours utcMinutes = 180 →
      angleBetweenClockHands utcHours utcMinutes = Real.pi := by
  intro h m e
  simp only [angleBetweenClockHands, e]
  norm_num

/-- Witness for C6 at 06:00, where the raw angle is exactly 180°. -/
theorem angleBetweenClockHands_at_straight_angle_witness :
    clockRawAngleDeg 6 0 = 180 ∧ angleBetweenClockHands 6 0 = Real.pi :=
  ⟨by norm_num [clockRawAngleDeg],
    angleBetweenClockHands_at_straight_angle 6 0 (by norm_num [clockRawAngleDeg])⟩

end DateTasks
